import Mathlib

/-!
Verification of the ESSL attendance agent against its specification.

The definitions below are a shallow embedding of the TypeScript sources:
`src/main/zk-client.ts` (the hand-rolled ZK TCP codec and session client),
`src/main/database.ts` (the SQLite-backed record store),
`src/main/api-server.ts` (the API-key middleware and drain endpoints) and
the scheduler (`Scheduler.syncAllDevices`).

Byte buffers are modelled as `List Nat` (each element a byte value), JS
numbers as `Nat` with explicit `% 2^w` where the code truncates, strings as
`String` or as byte lists where the code manipulates raw bytes, and the JS
`Date`/`Buffer` reads as the corresponding arithmetic on the byte list.
-/

namespace ZK

/-! ### Byte-buffer primitives (Node `Buffer` reads/writes, little-endian) -/

/-- `Buffer.writeUInt16LE`: the two little-endian bytes of a 16-bit value. -/
def writeUInt16LE (v : Nat) : List Nat := [v % 256, v / 256 % 256]

/-- `Buffer.writeUInt32LE`: the four little-endian bytes of a 32-bit value. -/
def writeUInt32LE (v : Nat) : List Nat :=
  [v % 256, v / 256 % 256, v / 65536 % 256, v / 16777216 % 256]

/-- `Buffer.readUInt16LE(i)`; out-of-range bytes read as 0 (the sources only
read in range). -/
def readUInt16LE (buf : List Nat) (i : Nat) : Nat :=
  buf.getD i 0 + 256 * buf.getD (i + 1) 0

/-- `Buffer.readUInt32LE(i)`. -/
def readUInt32LE (buf : List Nat) (i : Nat) : Nat :=
  buf.getD i 0 + 256 * buf.getD (i + 1) 0 + 65536 * buf.getD (i + 2) 0 +
    16777216 * buf.getD (i + 3) 0

/-- `Buffer.readUInt8(i)`. -/
def readUInt8 (buf : List Nat) (i : Nat) : Nat := buf.getD i 0

/-- `Buffer.slice(a, b)` (non-throwing, clamped, as in Node). -/
def bufSlice (buf : List Nat) (a b : Nat) : List Nat := (buf.drop a).take (b - a)

/-! ### Command constants (`CMD` in zk-client.ts) -/

def CMD_CONNECT : Nat := 1000
def CMD_EXIT : Nat := 1001
def CMD_GET_ATTENDANCE : Nat := 13
def CMD_ACK_OK : Nat := 2000
def CMD_PREPARE_DATA : Nat := 1500
def CMD_DATA : Nat := 1501
def CMD_FREE_DATA : Nat := 1502
def USHRT_MAX : Nat := 65535

/-! ### Checksum (`ZKClient.createChecksum`)

The code iterates `i = 0, 2, 4, ...` over the buffer, skipping the iteration
at `i = 2` (the checksum slot), reading a 16-bit LE word when two bytes
remain and the lone trailing byte otherwise, summing into a JS number, then
computing `(sum ^ 0xFFFF) + 1` truncated with `& 0xFFFF`. -/

/-- The summation loop of `createChecksum`: `l` is the unread suffix of the
buffer and `i` the byte offset at which it starts. -/
def checksumLoop : List Nat → Nat → Nat
  | [], _ => 0
  | [b], i => if i = 2 then 0 else b
  | b0 :: b1 :: rest, i =>
    (if i = 2 then 0 else b0 + 256 * b1) + checksumLoop rest (i + 2)

/-- `ZKClient.createChecksum` over a command-layer buffer. -/
def createChecksum (buf : List Nat) : Nat :=
  (((checksumLoop buf 0) ^^^ 65535) + 1) % 65536

/-- The command-layer buffer before the checksum is written (the checksum
slot holds the `writeUInt16LE(0, 2)` placeholder). -/
def headerPlaceholder (command sessionId replyId : Nat) (payload : List Nat) :
    List Nat :=
  writeUInt16LE command ++ writeUInt16LE 0 ++ writeUInt16LE sessionId ++
    writeUInt16LE replyId ++ payload

/-- `ZKClient.createHeader`: build the command layer, compute the checksum
over the placeholder buffer, and write it into bytes 2..3. -/
def createHeader (command sessionId replyId : Nat) (payload : List Nat) :
    List Nat :=
  let ck := createChecksum (headerPlaceholder command sessionId replyId payload)
  writeUInt16LE command ++ writeUInt16LE ck ++ writeUInt16LE sessionId ++
    writeUInt16LE replyId ++ payload

/-- The 8-byte TCP-layer header (`ZKClient.createTcpPacket`). -/
def tcpHeader (bodyLen : Nat) : List Nat :=
  writeUInt16LE 0x5050 ++ writeUInt16LE 0x8282 ++ writeUInt32LE bodyLen

/-- `ZKClient.createTcpPacket`. -/
def createTcpPacket (command sessionId replyId : Nat) (payload : List Nat) :
    List Nat :=
  let header := createHeader command sessionId replyId payload
  tcpHeader header.length ++ header

/-! ### The specification's checksum (§4.1 of the spec, claim C2)

"Sum, as unsigned 16-bit wrap-around, all 16-bit LE words of the command
layer [checksum bytes treated as zero]; if the length is odd, add the
trailing byte as its low byte; result = `(~sum + 1) & 0xFFFF`." -/

/-- Wrap-around 16-bit sum of the LE words of a byte list, the trailing odd
byte added as its low byte. -/
def wrapSumWords : List Nat → Nat
  | [] => 0
  | [b] => b % 65536
  | b0 :: b1 :: rest => ((b0 + 256 * b1) + wrapSumWords rest) % 65536

/-- A buffer with its two checksum bytes (offsets 2 and 3) treated as zero. -/
def zeroChecksumBytes (buf : List Nat) : List Nat :=
  (buf.set 2 0).set 3 0

/-- The checksum as the specification words it: one's-complement negation
(xor with `0xFFFF`) of the 16-bit wrap-around sum, plus one, truncated. -/
def specChecksum (buf : List Nat) : Nat :=
  (((wrapSumWords (zeroChecksumBytes buf)) ^^^ 65535) + 1) % 65536

/-- Plain (unwrapped) word sum, used to relate the two computations. -/
def sumPairs : List Nat → Nat
  | [] => 0
  | [b] => b
  | b0 :: b1 :: rest => (b0 + 256 * b1) + sumPairs rest

theorem wrapSumWords_eq_sumPairs_mod :
    ∀ l : List Nat, wrapSumWords l = sumPairs l % 65536
  | [] => rfl
  | [_] => rfl
  | b0 :: b1 :: rest => by
    simp only [wrapSumWords, sumPairs, wrapSumWords_eq_sumPairs_mod rest]
    omega

theorem checksumLoop_no_skip :
    ∀ (l : List Nat) (i : Nat), 2 < i → checksumLoop l i = sumPairs l
  | [], _, _ => rfl
  | [b], i, h => by
    simp only [checksumLoop, sumPairs, if_neg (by omega : ¬ i = 2)]
  | b0 :: b1 :: rest, i, h => by
    simp only [checksumLoop, sumPairs,
      checksumLoop_no_skip rest (i + 2) (by omega),
      if_neg (by omega : ¬ i = 2)]

theorem xor_ffff_mod (a : Nat) : (a ^^^ 65535) % 65536 = (a % 65536) ^^^ 65535 := by
  have h65535 : (65535 : Nat) = 2 ^ 16 - 1 := by norm_num
  have h65536 : (65536 : Nat) = 2 ^ 16 := by norm_num
  rw [h65535, h65536]
  apply Nat.eq_of_testBit_eq
  intro i
  simp only [Nat.testBit_mod_two_pow, Nat.testBit_xor, Nat.testBit_two_pow_sub_one]
  by_cases h : i < 16 <;> simp [h]

theorem xor_ffff_succ_mod (a : Nat) :
    ((a ^^^ 65535) + 1) % 65536 = (((a % 65536) ^^^ 65535) + 1) % 65536 := by
  have h := xor_ffff_mod a
  omega

theorem zeroChecksumBytes_cons (c0 c1 k0 k1 : Nat) (rest : List Nat) :
    zeroChecksumBytes (c0 :: c1 :: k0 :: k1 :: rest) = c0 :: c1 :: 0 :: 0 :: rest := rfl

theorem readUInt16LE_at_two (c0 c1 k0 k1 : Nat) (rest : List Nat) :
    readUInt16LE (c0 :: c1 :: k0 :: k1 :: rest) 2 = k0 + 256 * k1 := rfl

theorem checksumLoop_cons (c0 c1 k0 k1 : Nat) (rest : List Nat) :
    checksumLoop (c0 :: c1 :: k0 :: k1 :: rest) 0 =
      (c0 + 256 * c1) + sumPairs rest := by
  simp only [checksumLoop, checksumLoop_no_skip rest 4 (by omega)]
  norm_num

/-- **C2** (confirmed). For every command-layer buffer built by
`createHeader` — command, session_id, reply_id and an arbitrary payload, so
length 8+N — the checksum written into bytes 2..3 equals `(~S + 1) & 0xFFFF`,
where `S` is the unsigned 16-bit wrap-around sum of the buffer's 16-bit LE
words with the two checksum bytes treated as zero, the trailing byte (when
the length is odd) added as its low byte. -/
theorem checksum_bytes_match_spec (command sessionId replyId : Nat)
    (payload : List Nat) :
    readUInt16LE (createHeader command sessionId replyId payload) 2 =
      specChecksum (createHeader command sessionId replyId payload) := by
  have hhead : createHeader command sessionId replyId payload =
      (command % 256) :: (command / 256 % 256) ::
      (createChecksum (headerPlaceholder command sessionId replyId payload) % 256) ::
      (createChecksum (headerPlaceholder command sessionId replyId payload) / 256 % 256) ::
      ((sessionId % 256) :: (sessionId / 256 % 256) ::
        (replyId % 256) :: (replyId / 256 % 256) :: payload) := rfl
  have hplace : headerPlaceholder command sessionId replyId payload =
      (command % 256) :: (command / 256 % 256) :: 0 :: 0 ::
      ((sessionId % 256) :: (sessionId / 256 % 256) ::
        (replyId % 256) :: (replyId / 256 % 256) :: payload) := rfl
  rw [hhead, readUInt16LE_at_two]
  unfold specChecksum
  rw [zeroChecksumBytes_cons, ← hplace, wrapSumWords_eq_sumPairs_mod,
    ← xor_ffff_succ_mod]
  have hloop : checksumLoop (headerPlaceholder command sessionId replyId payload) 0 =
      sumPairs (headerPlaceholder command sessionId replyId payload) := by
    rw [hplace, checksumLoop_cons]
    simp only [sumPairs]
    omega
  have hck : createChecksum (headerPlaceholder command sessionId replyId payload) =
      ((sumPairs (headerPlaceholder command sessionId replyId payload) ^^^ 65535) + 1) %
        65536 := by
    unfold createChecksum
    rw [hloop]
  omega

/-! ### Response parsing and the session client (`parseResponse`, `connect`) -/

/-- The fields `ZKClient.parseResponse` extracts from a received frame. -/
structure ParsedFrame where
  command : Nat
  checksum : Nat
  sessionId : Nat
  replyId : Nat
  payload : List Nat
deriving Repr, DecidableEq

/-- `ZKClient.parseResponse`: reject frames shorter than 8 bytes, skip the
TCP layer when the first word is the 0x5050 magic, and read the command-layer
fields. No checksum verification is performed. -/
def parseResponse (data : List Nat) : Except String ParsedFrame :=
  if data.length < 8 then .error "Response too short"
  else
    let offset := if readUInt16LE data 0 = 0x5050 then 8 else 0
    .ok { command := readUInt16LE data offset
          checksum := readUInt16LE data (offset + 2)
          sessionId := readUInt16LE data (offset + 4)
          replyId := readUInt16LE data (offset + 6)
          payload := data.drop (offset + 8) }

/-- The mutable fields of `ZKClient` that the handshake touches:
`socketOpen` models `this.socket !== null`. -/
structure ClientState where
  socketOpen : Bool
  sessionId : Nat
  replyId : Nat
  connected : Bool
deriving Repr, DecidableEq

/-- Field initialisers of `ZKClient` (`socket = null`, `sessionId = 0`,
`replyId = 0`, `connected = false`). -/
def initialState : ClientState :=
  { socketOpen := false, sessionId := 0, replyId := 0, connected := false }

/-- `ZKClient.sendCommand`, socket I/O abstracted away. The guard
`if (!this.socket || !this.connected) reject(new Error('Not connected'))`
comes first; only past it is the frame built (echoing the state's session
id), the `replyId = (replyId + 1) & USHRT_MAX` increment applied, and the
frame written to the socket. -/
def sendCommandFrame (s : ClientState) (command : Nat) (payload : List Nat) :
    Except String (List Nat × ClientState) :=
  if s.socketOpen = false ∨ s.connected = false then .error "Not connected"
  else
    .ok (createTcpPacket command s.sessionId s.replyId payload,
      { s with replyId := (s.replyId + 1) &&& USHRT_MAX })

/-- `ZKClient.connect` as a function of the device's reply frame. The method
assigns `this.socket = new net.Socket()` and, once the socket connects,
calls `sendCommand(CMD.CONNECT)` — at which point `connected` is still
`false` (it is assigned only after an `ACK_OK` reply). On a sent frame whose
reply parses as `ACK_OK`, the returned session id is recorded and
`connected` set; the sent frame is returned alongside the state. -/
def connect (reply : List Nat) : Except String (ClientState × List Nat) :=
  match sendCommandFrame { initialState with socketOpen := true } CMD_CONNECT [] with
  | .error e => .error e
  | .ok (frame, s1) =>
    match parseResponse reply with
    | .error e => .error e
    | .ok p =>
      if p.command = CMD_ACK_OK then
        .ok ({ s1 with sessionId := p.sessionId, connected := true }, frame)
      else
        .error "Connection rejected by device"

/-- **C1** (code bug). `sendCommand` rejects with `'Not connected'` unless
the socket is assigned *and* `connected` is true, but `connect()` invokes it
while `connected` is still false — the flag is set only after a reply that
can therefore never arrive. So for every device reply, including a perfect
`ACK_OK` frame carrying session id 0x1234, `connect` rejects with
`'Not connected'`: no CONNECT frame is ever sent, no session id recorded,
and the Connected state is unreachable. -/
theorem connect_always_rejects_not_connected :
    (∀ reply : List Nat, connect reply = .error "Not connected") ∧
    connect [208, 7, 0, 0, 52, 18, 0, 0] = .error "Not connected" := by
  constructor
  · intro reply
    rfl
  · rfl

/-- **C3** (counterexample). The frame `[208, 7, 0, 0, 0, 0, 0, 0]` carries
checksum field 0, while the checksum recomputed over its command layer is
63536; `parseResponse` still delivers it to the caller instead of failing
with a BadChecksum error. -/
theorem parseResponse_ignores_bad_checksum_cex :
    parseResponse [208, 7, 0, 0, 0, 0, 0, 0] =
      .ok { command := 2000, checksum := 0, sessionId := 0, replyId := 0,
            payload := [] } ∧
    createChecksum [208, 7, 0, 0, 0, 0, 0, 0] = 63536 ∧
    specChecksum [208, 7, 0, 0, 0, 0, 0, 0] = 63536 := by
  refine ⟨rfl, by decide, by decide⟩

/-- **C3** (amended). The client performs no checksum verification on
receive: every frame of at least 8 bytes is parsed and delivered with its
fields read as-is, whatever its checksum field holds. -/
theorem parseResponse_delivers_without_verification (data : List Nat)
    (h : 8 ≤ data.length) :
    parseResponse data =
      .ok { command := readUInt16LE data (if readUInt16LE data 0 = 0x5050 then 8 else 0)
            checksum := readUInt16LE data ((if readUInt16LE data 0 = 0x5050 then 8 else 0) + 2)
            sessionId := readUInt16LE data ((if readUInt16LE data 0 = 0x5050 then 8 else 0) + 4)
            replyId := readUInt16LE data ((if readUInt16LE data 0 = 0x5050 then 8 else 0) + 6)
            payload := data.drop ((if readUInt16LE data 0 = 0x5050 then 8 else 0) + 8) } := by
  unfold parseResponse
  rw [if_neg (by omega)]

/-- Witness for the amended C3 at a concrete 8-byte frame. -/
theorem parseResponse_delivers_without_verification_witness :
    parseResponse [208, 7, 9, 9, 1, 0, 2, 0] =
      .ok { command := readUInt16LE [208, 7, 9, 9, 1, 0, 2, 0]
              (if readUInt16LE [208, 7, 9, 9, 1, 0, 2, 0] 0 = 0x5050 then 8 else 0)
            checksum := readUInt16LE [208, 7, 9, 9, 1, 0, 2, 0]
              ((if readUInt16LE [208, 7, 9, 9, 1, 0, 2, 0] 0 = 0x5050 then 8 else 0) + 2)
            sessionId := readUInt16LE [208, 7, 9, 9, 1, 0, 2, 0]
              ((if readUInt16LE [208, 7, 9, 9, 1, 0, 2, 0] 0 = 0x5050 then 8 else 0) + 4)
            replyId := readUInt16LE [208, 7, 9, 9, 1, 0, 2, 0]
              ((if readUInt16LE [208, 7, 9, 9, 1, 0, 2, 0] 0 = 0x5050 then 8 else 0) + 6)
            payload := [208, 7, 9, 9, 1, 0, 2, 0].drop
              ((if readUInt16LE [208, 7, 9, 9, 1, 0, 2, 0] 0 = 0x5050 then 8 else 0) + 8) } :=
  parseResponse_delivers_without_verification [208, 7, 9, 9, 1, 0, 2, 0] (by decide)

/-! ### Packed timestamps (`decodeTime`) -/

/-- The (year, month, day, hour, minute, second) tuple that
`ZKClient.decodeTime` computes and passes to the JS `Date` constructor
(month 0-based; the spec's base-2000 months-as-31-days calendar). -/
structure DecodedDate where
  year : Nat
  month : Nat
  day : Nat
  hour : Nat
  minute : Nat
  second : Nat
deriving Repr, DecidableEq

/-- `ZKClient.decodeTime`: successive division of the packed 32-bit value. -/
def decodeTime (t : Nat) : DecodedDate :=
  { second := t % 60
    minute := t / 60 % 60
    hour := t / 60 / 60 % 24
    day := t / 60 / 60 / 24 % 31 + 1
    month := t / 60 / 60 / 24 / 31 % 12
    year := t / 60 / 60 / 24 / 31 / 12 + 2000 }

/-- Modelled from the spec: the reverse packed-timestamp encoding. No encoder
exists under src/; §4.1 states "The reverse encoding is the inverse" over the
base-2000 months-as-31-days calendar, so the encoder multiplies the fields
back in the same radices. -/
def encodeTime (d : DecodedDate) : Nat :=
  ((((d.year - 2000) * 12 + d.month) * 31 + (d.day - 1)) * 24 + d.hour) * 60 * 60 +
    d.minute * 60 + d.second

/-- **C4** (confirmed). For all `t` in `[0, 12·31·24·60·60)`, decoding the
packed timestamp `t` and re-encoding the resulting date yields `t` again. -/
theorem encode_decode_roundtrip (t : Nat) (h : t < 12 * 31 * 24 * 60 * 60) :
    encodeTime (decodeTime t) = t := by
  unfold encodeTime decodeTime
  simp only
  omega

/-- Witness for C4 at a concrete in-range timestamp. -/
theorem encode_decode_roundtrip_witness :
    encodeTime (decodeTime 9876543) = 9876543 :=
  encode_decode_roundtrip 9876543 (by norm_num)

/-! ### Attendance record parsing (`parseAttendanceRecord`, `getAttendance`)

`userId` strings are modelled as the byte lists underlying the JS strings:
`.replace(/\0/g, '')` removes every NUL byte and `.trim()` strips leading and
trailing ASCII whitespace. The `uid.toString()` fallback of the 16-byte
format is the decimal-digit byte string of `uid`. -/

/-- `.replace(/\0/g, '')`: drop every NUL byte. -/
def stripNul (l : List Nat) : List Nat := l.filter (fun b => b ≠ 0)

/-- The whitespace bytes `.trim()` removes. -/
def isSpaceByte (b : Nat) : Bool := b = 32 || b = 9 || b = 10 || b = 11 || b = 12 || b = 13

/-- `.trim()`: strip leading and trailing whitespace bytes. -/
def trimBytes (l : List Nat) : List Nat :=
  ((l.dropWhile isSpaceByte).reverse.dropWhile isSpaceByte).reverse

/-- `uid.toString()`: the decimal digit bytes of a number (never empty). -/
def decDigits (n : Nat) : List Nat := (Nat.toDigits 10 n).map Char.toNat

/-- A decoded attendance record (`AttendanceRecord` in zk-client.ts), the
timestamp kept as the decoded date tuple and `userId` as its byte string. -/
structure AttRecord where
  oderId : Nat
  oderId2 : Nat
  oderId3 : Nat
  userId : List Nat
  timestamp : DecodedDate
  status : Nat
  punch : Nat
  uid : Nat
deriving Repr, DecidableEq

/-- The userId bytes of the 40-byte format: `data.slice(6, 15)` NUL-stripped
and trimmed. -/
def userId40 (data : List Nat) : List Nat := trimBytes (stripNul (bufSlice data 6 15))

/-- The userId bytes the 16-byte format reads before its fallback:
`data.slice(2, 6)` NUL-stripped and trimmed. -/
def userId16 (data : List Nat) : List Nat := trimBytes (stripNul (bufSlice data 2 6))

/-- `ZKClient.parseAttendanceRecord`. The `try/catch` around the buffer reads
is modelled by the explicit length guards (a Node `Buffer.readUIntNLE` throws
when the read overruns the buffer; the highest read offsets are 33 for the
40-byte format and 9 for the 16-byte one). -/
def parseAttendanceRecord (data : List Nat) (size : Nat) : Option AttRecord :=
  if size = 40 then
    if data.length < 34 then none
    else
      let userId := userId40 data
      if userId = [] then none
      else
        some { oderId := readUInt16LE data 0
               oderId2 := readUInt16LE data 2
               oderId3 := readUInt16LE data 4
               userId := userId
               timestamp := decodeTime (readUInt32LE data 24)
               status := readUInt8 data 28
               punch := readUInt8 data 29
               uid := readUInt16LE data 32 }
  else
    if data.length < 10 then none
    else
      let uid := readUInt16LE data 0
      let userId := if userId16 data = [] then decDigits uid else userId16 data
      if userId = [] then none
      else
        some { oderId := 0
               oderId2 := 0
               oderId3 := 0
               userId := userId
               timestamp := decodeTime (readUInt32LE data 4)
               status := readUInt8 data 8
               punch := readUInt8 data 9
               uid := uid }

/-- The record loop of `getAttendance`:
`for (i = 0; i + recordSize <= len; i += recordSize)`, collecting the
successfully parsed slices and silently dropping the `null` ones. The fuel
argument (instantiated with the buffer length) only bounds the recursion. -/
def chunkRecordsAux (size : Nat) : Nat → List Nat → List AttRecord
  | 0, _ => []
  | fuel + 1, B =>
    if 0 < size ∧ size ≤ B.length then
      (match parseAttendanceRecord (B.take size) size with
       | some r => [r]
       | none => []) ++ chunkRecordsAux size fuel (B.drop size)
    else []

def chunkRecords (size : Nat) (B : List Nat) : List AttRecord :=
  chunkRecordsAux size B.length B

/-- The large-payload (`PREPARE_DATA`/`DATA`) path of `getAttendance` over
the accumulated buffer: `recordSize = allData.length >= 40 ? 40 : 16`. -/
def largePath (B : List Nat) : List AttRecord :=
  chunkRecords (if 40 ≤ B.length then 40 else 16) B

/-- The small-payload path of `getAttendance` (device answers `ACK_OK` with
the data inline): `recordSize = 40` unconditionally. -/
def smallPath (B : List Nat) : List AttRecord :=
  chunkRecords 40 B

theorem chunkRecordsAux_short (size : Nat) :
    ∀ (fuel : Nat) (B : List Nat), ¬ size ≤ B.length →
      chunkRecordsAux size fuel B = []
  | 0, _, _ => rfl
  | fuel + 1, B, h => by
    unfold chunkRecordsAux
    rw [if_neg (by exact fun hc => h hc.2)]

/-- **C5** (counterexample). On the 16-byte buffer of zeros the large-payload
path decodes one record (the 16-byte format, userId falling back to `"0"`),
while the small-payload path decodes none: the two paths do not parse the
same bytes identically. -/
theorem small_large_path_differ_cex :
    largePath (List.replicate 16 0) ≠ smallPath (List.replicate 16 0) ∧
    (largePath (List.replicate 16 0)).length = 1 ∧
    smallPath (List.replicate 16 0) = [] := by
  refine ⟨by decide, by decide, by decide⟩

/-- **C5** (amended). The small-payload path parses with record size 40
unconditionally, so it coincides with the large-payload path exactly when the
accumulated buffer either has at least 40 bytes (both use 40-byte records) or
fewer than 16 bytes (both yield nothing); for 16 ≤ length < 40 the large path
parses 16-byte records and the small path yields nothing. In both paths a
40-byte record whose userId is empty after NUL-stripping and trimming is
dropped without failing the whole parse. -/
theorem small_path_matches_large_path (B data : List Nat)
    (h : 40 ≤ B.length ∨ B.length < 16) (hlen : data.length = 40)
    (hid : userId40 data = []) :
    largePath B = smallPath B ∧ parseAttendanceRecord data 40 = none := by
  constructor
  · rcases h with h40 | h16
    · unfold largePath smallPath
      rw [if_pos h40]
    · unfold largePath smallPath chunkRecords
      rw [if_neg (by omega)]
      rw [chunkRecordsAux_short 16 B.length B (by omega),
        chunkRecordsAux_short 40 B.length B (by omega)]
  · unfold parseAttendanceRecord
    rw [if_pos rfl, if_neg (by omega), hid]
    simp

/-- Witness for the amended C5: a 41-byte buffer of zeros takes the 40-byte
format on both paths (and its sole record is dropped for an empty userId). -/
theorem small_path_matches_large_path_witness :
    largePath (List.replicate 41 0) = smallPath (List.replicate 41 0) ∧
    parseAttendanceRecord (List.replicate 40 0) 40 = none :=
  small_path_matches_large_path (List.replicate 41 0) (List.replicate 40 0)
    (Or.inl (by decide)) (by decide) (by decide)

end ZK

namespace DB

/-!
### The record store (`DatabaseManager` in src/main/database.ts)

The attendance table has `id INTEGER PRIMARY KEY AUTOINCREMENT`, a `UNIQUE`
constraint on the natural key `(deviceId, oderId, oderId2, oderId3, userId,
timestamp)`, and `syncedToCloud INTEGER DEFAULT 0`. Inserts go through
`INSERT OR IGNORE`, so a row is inserted (with `changes = 1`) exactly when
its natural key is absent, and ids are assigned by a monotone counter that is
never reset (AUTOINCREMENT; the JSON fallback store in App.tsx uses
`++counters.attendanceId` with the same semantics). Timestamps and userIds
are the ISO / text strings the code stores.
-/

/-- A row of the attendance table. -/
structure PunchRow where
  id : Nat
  deviceId : Nat
  oderId : Nat
  oderId2 : Nat
  oderId3 : Nat
  userId : String
  timestamp : String
  status : Nat
  punch : Nat
  syncedToCloud : Bool
deriving Repr, DecidableEq

/-- The composite natural key enforced by the UNIQUE constraint. -/
structure NatKey where
  deviceId : Nat
  oderId : Nat
  oderId2 : Nat
  oderId3 : Nat
  userId : String
  timestamp : String
deriving Repr, DecidableEq

def PunchRow.key (p : PunchRow) : NatKey :=
  { deviceId := p.deviceId, oderId := p.oderId, oderId2 := p.oderId2,
    oderId3 := p.oderId3, userId := p.userId, timestamp := p.timestamp }

/-- The argument of `addAttendance`/`addAttendanceBulk` (no id, no flag). -/
structure NewPunch where
  deviceId : Nat
  oderId : Nat
  oderId2 : Nat
  oderId3 : Nat
  userId : String
  timestamp : String
  status : Nat
  punch : Nat
deriving Repr, DecidableEq

def NewPunch.key (r : NewPunch) : NatKey :=
  { deviceId := r.deviceId, oderId := r.oderId, oderId2 := r.oderId2,
    oderId3 := r.oderId3, userId := r.userId, timestamp := r.timestamp }

/-- The row an insert creates: fresh id, `syncedToCloud` defaulting to 0. -/
def NewPunch.toRow (r : NewPunch) (id : Nat) : PunchRow :=
  { id := id, deviceId := r.deviceId, oderId := r.oderId, oderId2 := r.oderId2,
    oderId3 := r.oderId3, userId := r.userId, timestamp := r.timestamp,
    status := r.status, punch := r.punch, syncedToCloud := false }

/-- A row of the devices table (fields the core touches). -/
structure DeviceRow where
  id : Nat
  name : String
  ip : String
  port : Nat
  isActive : Bool
  lastSync : Option String
deriving Repr, DecidableEq

/-- A row of the sync_logs table. -/
structure SyncLogRow where
  deviceId : Nat
  syncType : String
  recordCount : Nat
  status : String
  message : String
deriving Repr, DecidableEq

/-- The store state: the three tables plus the punch id counter
(AUTOINCREMENT high-water mark / `counters.attendanceId`). -/
structure Store where
  counter : Nat
  punches : List PunchRow
  devices : List DeviceRow
  syncLogs : List SyncLogRow
deriving Repr, DecidableEq

def emptyStore : Store := { counter := 0, punches := [], devices := [], syncLogs := [] }

/-- How many punches of the store carry a given natural key. -/
def countKey (k : NatKey) (s : Store) : Nat :=
  s.punches.countP (fun p => decide (p.key = k))

/-- `DatabaseManager.addAttendance`: `INSERT OR IGNORE`, returning
`result.changes` (1 when inserted, 0 when the natural key already exists). -/
def addAttendance (s : Store) (r : NewPunch) : Nat × Store :=
  if s.punches.any (fun p => decide (p.key = r.key)) then (0, s)
  else
    (1, { s with counter := s.counter + 1,
                 punches := s.punches ++ [r.toRow (s.counter + 1)] })

/-- `DatabaseManager.addAttendanceBulk`: the transaction runs the same
`INSERT OR IGNORE` per record, accumulating `result.changes`. -/
def addAttendanceBulk (s : Store) : List NewPunch → Nat × Store
  | [] => (0, s)
  | r :: rs =>
    let n := (addAttendance s r).1
    let res := addAttendanceBulk (addAttendance s r).2 rs
    (n + res.1, res.2)

/-- `DatabaseManager.markAsSynced`:
`UPDATE attendance SET syncedToCloud = 1 WHERE id IN (...)` (ids not in the
table are silently ignored; an empty list updates nothing). -/
def markAsSynced (s : Store) (ids : List Nat) : Store :=
  let upd := fun (p : PunchRow) =>
    if p.id ∈ ids then { p with syncedToCloud := true } else p
  { s with punches := s.punches.map upd }

/-- `DatabaseManager.addSyncLog` (with the JSON store's trim to the most
recent 1000 rows; punches are untouched either way). -/
def addSyncLog (s : Store) (l : SyncLogRow) : Store :=
  let logs := s.syncLogs ++ [l]
  { s with syncLogs := if 1000 < logs.length then logs.drop (logs.length - 1000) else logs }

/-- `DatabaseManager.updateDevice` stamping `lastSync` (the only device
update the scheduler performs). -/
def updateDeviceLastSync (s : Store) (id : Nat) (t : String) : Store :=
  let upd := fun (d : DeviceRow) =>
    if d.id = id then { d with lastSync := some t } else d
  { s with devices := s.devices.map upd }

/-- Clearing the attendance table (`DELETE FROM attendance`; AUTOINCREMENT
keeps its sequence, so the counter is untouched). -/
def clearAttendance (s : Store) : Store := { s with punches := [] }

/-- The filter options of `DatabaseManager.getAttendance`. -/
structure AttQuery where
  deviceId : Option Nat := none
  userId : Option String := none
  startDate : Option String := none
  endDate : Option String := none
  syncedToCloud : Option Bool := none
  limit : Option Nat := none
  offset : Option Nat := none

/-- The WHERE clause of `getAttendance` applied to one row. -/
def rowMatches (q : AttQuery) (p : PunchRow) : Bool :=
  (match q.deviceId with | some d => decide (p.deviceId = d) | none => true) &&
  (match q.userId with | some u => decide (p.userId = u) | none => true) &&
  (match q.startDate with | some d => decide (d ≤ p.timestamp) | none => true) &&
  (match q.endDate with | some d => decide (p.timestamp ≤ d) | none => true) &&
  (match q.syncedToCloud with | some b => decide (p.syncedToCloud = b) | none => true)

/-- `DatabaseManager.getAttendance`: filter, `ORDER BY timestamp DESC`, then
`OFFSET`/`LIMIT`. -/
def getAttendance (s : Store) (q : AttQuery) : List PunchRow :=
  let rows := (s.punches.filter (rowMatches q)).mergeSort
    (fun a b => decide (b.timestamp ≤ a.timestamp))
  let rows := match q.offset with | some o => rows.drop o | none => rows
  match q.limit with | some l => rows.take l | none => rows

/-- The `GET /api/attendance/sync` handler (api-server.ts): unsynced rows,
optionally from `since`, up to `limit`. -/
def apiGetSync (s : Store) (since : Option String) (limit : Nat) : List PunchRow :=
  getAttendance s { syncedToCloud := some false, limit := some limit, startDate := since }

/-- The store operations of the core (the scheduler's writes, the drain
endpoints, and the administrative purge). -/
inductive Op where
  | add (r : NewPunch)
  | addBulk (rs : List NewPunch)
  | mark (ids : List Nat)
  | log (l : SyncLogRow)
  | updDevice (id : Nat) (t : String)
  | clear
deriving Repr, DecidableEq

def applyOp (s : Store) : Op → Store
  | .add r => (addAttendance s r).2
  | .addBulk rs => (addAttendanceBulk s rs).2
  | .mark ids => markAsSynced s ids
  | .log l => addSyncLog s l
  | .updDevice id t => updateDeviceLastSync s id t
  | .clear => clearAttendance s

def runOps (s : Store) : List Op → Store
  | [] => s
  | op :: ops => runOps (applyOp s op) ops

/-! ### De-duplicating bulk insert (claim C6) -/

theorem toRow_key (r : NewPunch) (id : Nat) : (r.toRow id).key = r.key := rfl

theorem addAttendance_of_fresh (s : Store) (r : NewPunch) (h : countKey r.key s = 0) :
    addAttendance s r =
      (1, { s with counter := s.counter + 1,
                   punches := s.punches ++ [r.toRow (s.counter + 1)] }) := by
  unfold addAttendance
  rw [if_neg]
  intro hany
  rw [List.any_eq_true] at hany
  obtain ⟨p, hp, hpk⟩ := hany
  unfold countKey at h
  rw [List.countP_eq_zero] at h
  exact h p hp hpk

theorem addAttendance_of_dup (s : Store) (r : NewPunch) (h : countKey r.key s ≠ 0) :
    addAttendance s r = (0, s) := by
  unfold addAttendance
  rw [if_pos]
  rw [List.any_eq_true]
  unfold countKey at h
  rcases List.countP_pos_iff.mp (Nat.pos_of_ne_zero h) with ⟨p, hp, hpk⟩
  exact ⟨p, hp, hpk⟩

theorem countKey_append_row (s : Store) (row : PunchRow) (k : NatKey) (c : Nat) :
    countKey k { s with counter := c, punches := s.punches ++ [row] } =
      countKey k s + (if row.key = k then 1 else 0) := by
  unfold countKey
  simp [List.countP_append, List.countP_cons]

theorem bulk_len_aux :
    ∀ (rs : List NewPunch) (s : Store),
      (addAttendanceBulk s rs).1 + s.punches.length =
        (addAttendanceBulk s rs).2.punches.length
  | [], s => by simp [addAttendanceBulk]
  | r :: rs, s => by
    unfold addAttendanceBulk
    by_cases h : countKey r.key s = 0
    · rw [addAttendance_of_fresh s r h]
      have ih := bulk_len_aux rs
        { s with counter := s.counter + 1,
                 punches := s.punches ++ [r.toRow (s.counter + 1)] }
      simp only [List.length_append, List.length_cons, List.length_nil] at ih ⊢
      omega
    · rw [addAttendance_of_dup s r h]
      have ih := bulk_len_aux rs s
      dsimp only
      omega

theorem bulk_countKey_aux :
    ∀ (rs : List NewPunch) (s : Store) (k : NatKey),
      countKey k (addAttendanceBulk s rs).2 =
        countKey k s + (if k ∈ rs.map NewPunch.key ∧ countKey k s = 0 then 1 else 0)
  | [], s, k => by simp [addAttendanceBulk]
  | r :: rs, s, k => by
    unfold addAttendanceBulk
    by_cases h : countKey r.key s = 0
    · rw [addAttendance_of_fresh s r h]
      rw [bulk_countKey_aux rs _ k, countKey_append_row, toRow_key]
      by_cases hk : k = r.key
      · subst hk
        simp [h]
      · have hne : ¬ r.key = k := fun hc => hk hc.symm
        simp only [if_neg hne, Nat.add_zero, List.map_cons, List.mem_cons]
        by_cases hm : k ∈ rs.map NewPunch.key <;>
          by_cases hc : countKey k s = 0 <;> simp [hm, hc, hk]
    · rw [addAttendance_of_dup s r h]
      rw [bulk_countKey_aux rs s k]
      by_cases hk : k = r.key
      · subst hk
        simp [h]
      · simp only [List.map_cons, List.mem_cons]
        by_cases hm : k ∈ rs.map NewPunch.key <;>
          by_cases hc : countKey k s = 0 <;> simp [hm, hc, hk]

/-- **C6** (confirmed). `addAttendanceBulk` returns exactly the number of
rows actually inserted (the growth of the attendance table), and a record is
inserted exactly when its natural key `(deviceId, oderId, oderId2, oderId3,
userId, timestamp)` is neither already in the store nor inserted earlier in
the same batch: after the call each batch key that was absent occurs exactly
once, every other key count is unchanged. In particular a batch holding the
same natural-key record twice on a store without that key returns 1 and
leaves exactly one matching punch. -/
theorem addAttendanceBulk_count_spec :
    (∀ (rs : List NewPunch) (s : Store),
      (addAttendanceBulk s rs).1 + s.punches.length =
        (addAttendanceBulk s rs).2.punches.length ∧
      ∀ k : NatKey, countKey k (addAttendanceBulk s rs).2 =
        countKey k s + (if k ∈ rs.map NewPunch.key ∧ countKey k s = 0 then 1 else 0)) ∧
    (∀ (s : Store) (r : NewPunch), countKey r.key s = 0 →
      (addAttendanceBulk s [r, r]).1 = 1 ∧
      countKey r.key (addAttendanceBulk s [r, r]).2 = 1) := by
  constructor
  · exact fun rs s => ⟨bulk_len_aux rs s, fun k => bulk_countKey_aux rs s k⟩
  · intro s r h
    have hfresh := addAttendance_of_fresh s r h
    have hdup : addAttendance
        { s with counter := s.counter + 1,
                 punches := s.punches ++ [r.toRow (s.counter + 1)] } r = (0,
          { s with counter := s.counter + 1,
                   punches := s.punches ++ [r.toRow (s.counter + 1)] }) := by
      apply addAttendance_of_dup
      rw [countKey_append_row, toRow_key, if_pos rfl]
      omega
    constructor
    · show (addAttendanceBulk s [r, r]).1 = 1
      unfold addAttendanceBulk
      rw [hfresh]
      unfold addAttendanceBulk
      rw [hdup]
      unfold addAttendanceBulk
      rfl
    · show countKey r.key (addAttendanceBulk s [r, r]).2 = 1
      unfold addAttendanceBulk
      rw [hfresh]
      unfold addAttendanceBulk
      rw [hdup]
      unfold addAttendanceBulk
      simp only
      rw [countKey_append_row, toRow_key, if_pos rfl, h]

/-- Witness for C6: the duplicate-batch law at a concrete record on the empty
store. -/
theorem addAttendanceBulk_count_spec_witness :
    (addAttendanceBulk emptyStore
       [{ deviceId := 1, oderId := 0, oderId2 := 0, oderId3 := 0, userId := "42",
          timestamp := "2026-01-02T03:04:05.000Z", status := 0, punch := 0 },
        { deviceId := 1, oderId := 0, oderId2 := 0, oderId3 := 0, userId := "42",
          timestamp := "2026-01-02T03:04:05.000Z", status := 0, punch := 0 }]).1 = 1 ∧
    countKey
      (NewPunch.key
        { deviceId := 1, oderId := 0, oderId2 := 0, oderId3 := 0, userId := "42",
          timestamp := "2026-01-02T03:04:05.000Z", status := 0, punch := 0 })
      (addAttendanceBulk emptyStore
        [{ deviceId := 1, oderId := 0, oderId2 := 0, oderId3 := 0, userId := "42",
           timestamp := "2026-01-02T03:04:05.000Z", status := 0, punch := 0 },
         { deviceId := 1, oderId := 0, oderId2 := 0, oderId3 := 0, userId := "42",
           timestamp := "2026-01-02T03:04:05.000Z", status := 0, punch := 0 }]).2 = 1 :=
  addAttendanceBulk_count_spec.2 emptyStore
    { deviceId := 1, oderId := 0, oderId2 := 0, oderId3 := 0, userId := "42",
      timestamp := "2026-01-02T03:04:05.000Z", status := 0, punch := 0 } (by decide)

/-! ### Structure of inserts (shared by claims C7 and C10) -/

theorem addAttendance_ext (s : Store) (r : NewPunch) :
    ∃ ext : List PunchRow,
      (addAttendance s r).2.punches = s.punches ++ ext ∧
      s.counter ≤ (addAttendance s r).2.counter ∧
      ∀ q ∈ ext, q.syncedToCloud = false ∧ s.counter < q.id ∧
        q.id ≤ (addAttendance s r).2.counter := by
  by_cases h : countKey r.key s = 0
  · refine ⟨[r.toRow (s.counter + 1)], ?_⟩
    rw [addAttendance_of_fresh s r h]
    refine ⟨rfl, by dsimp only; omega, ?_⟩
    intro q hq
    rw [List.mem_singleton] at hq
    subst hq
    refine ⟨rfl, ?_, ?_⟩ <;> simp [NewPunch.toRow]
  · refine ⟨[], ?_⟩
    rw [addAttendance_of_dup s r h]
    exact ⟨(List.append_nil _).symm, le_refl _, by simp⟩

theorem addAttendanceBulk_ext :
    ∀ (rs : List NewPunch) (s : Store),
      ∃ ext : List PunchRow,
        (addAttendanceBulk s rs).2.punches = s.punches ++ ext ∧
        s.counter ≤ (addAttendanceBulk s rs).2.counter ∧
        ∀ q ∈ ext, q.syncedToCloud = false ∧ s.counter < q.id ∧
          q.id ≤ (addAttendanceBulk s rs).2.counter
  | [], s => ⟨[], (List.append_nil _).symm, le_refl _, by simp⟩
  | r :: rs, s => by
    obtain ⟨e1, he1, hc1, hp1⟩ := addAttendance_ext s r
    obtain ⟨e2, he2, hc2, hp2⟩ := addAttendanceBulk_ext rs (addAttendance s r).2
    refine ⟨e1 ++ e2, ?_, ?_, ?_⟩
    · show (addAttendanceBulk (addAttendance s r).2 rs).2.punches = _
      rw [he2, he1, List.append_assoc]
    · exact le_trans hc1 hc2
    · intro q hq
      rcases List.mem_append.mp hq with hq1 | hq2
      · obtain ⟨hs, hlo, hhi⟩ := hp1 q hq1
        exact ⟨hs, hlo, le_trans hhi hc2⟩
      · obtain ⟨hs, hlo, hhi⟩ := hp2 q hq2
        exact ⟨hs, lt_of_le_of_lt hc1 hlo, hhi⟩

/-- **C10** (confirmed). The sync cursor is monotone: under every listed
store operation (single or bulk insert, `markAsSynced` with any id list
including unknown ids, sync-log append, device updates — everything but the
administrative purge) a punch whose `syncedToCloud` flag is true keeps a row
with its id and the flag still true, no surviving row ever has the flag reset
to false, and every row of the result either existed before (by id) or is a
newly inserted row carrying the flag false. -/
theorem synced_flag_monotone (s : Store) (op : Op) (hop : op ≠ Op.clear) :
    (∀ p ∈ s.punches, ∃ p' ∈ (applyOp s op).punches,
        p'.id = p.id ∧ (p.syncedToCloud = true → p'.syncedToCloud = true)) ∧
    (∀ p' ∈ (applyOp s op).punches,
        p'.id ∈ s.punches.map PunchRow.id ∨ p'.syncedToCloud = false) := by
  cases op with
  | add r =>
    obtain ⟨ext, hext, _, hprop⟩ := addAttendance_ext s r
    constructor
    · intro p hp
      refine ⟨p, ?_, rfl, fun h => h⟩
      show p ∈ (addAttendance s r).2.punches
      rw [hext]
      exact List.mem_append_left _ hp
    · intro p' hp'
      rw [show (applyOp s (Op.add r)).punches = (addAttendance s r).2.punches from rfl,
        hext] at hp'
      rcases List.mem_append.mp hp' with h | h
      · exact Or.inl (List.mem_map_of_mem PunchRow.id h)
      · exact Or.inr (hprop p' h).1
  | addBulk rs =>
    obtain ⟨ext, hext, _, hprop⟩ := addAttendanceBulk_ext rs s
    constructor
    · intro p hp
      refine ⟨p, ?_, rfl, fun h => h⟩
      show p ∈ (addAttendanceBulk s rs).2.punches
      rw [hext]
      exact List.mem_append_left _ hp
    · intro p' hp'
      rw [show (applyOp s (Op.addBulk rs)).punches = (addAttendanceBulk s rs).2.punches
          from rfl, hext] at hp'
      rcases List.mem_append.mp hp' with h | h
      · exact Or.inl (List.mem_map_of_mem PunchRow.id h)
      · exact Or.inr (hprop p' h).1
  | mark ids =>
    constructor
    · intro p hp
      refine ⟨if p.id ∈ ids then { p with syncedToCloud := true } else p, ?_, ?_, ?_⟩
      · exact List.mem_map_of_mem _ hp
      · by_cases h : p.id ∈ ids <;> simp [h]
      · intro hs
        by_cases h : p.id ∈ ids <;> simp [h, hs]
    · intro p' hp'
      obtain ⟨p, hp, hpe⟩ := List.mem_map.mp hp'
      left
      have hid : p'.id = p.id := by
        subst hpe
        by_cases h : p.id ∈ ids <;> simp [h]
      rw [hid]
      exact List.mem_map_of_mem PunchRow.id hp
  | log l =>
    exact ⟨fun p hp => ⟨p, hp, rfl, fun h => h⟩,
      fun p' hp' => Or.inl (List.mem_map_of_mem PunchRow.id hp')⟩
  | updDevice id t =>
    exact ⟨fun p hp => ⟨p, hp, rfl, fun h => h⟩,
      fun p' hp' => Or.inl (List.mem_map_of_mem PunchRow.id hp')⟩
  | clear => exact absurd rfl hop

/-- A one-punch store whose single row already has the flag set. -/
def sampleSyncedStore : Store :=
  { counter := 1
    punches := [{ id := 1, deviceId := 1, oderId := 0, oderId2 := 0,
                  oderId3 := 0, userId := "u", timestamp := "t",
                  status := 0, punch := 0, syncedToCloud := true }]
    devices := []
    syncLogs := [] }

/-- Witness for C10: `markAsSynced` with an unknown id on a one-punch store. -/
theorem synced_flag_monotone_witness :
    (∀ p ∈ sampleSyncedStore.punches,
      ∃ p' ∈ (applyOp sampleSyncedStore (Op.mark [7])).punches,
        p'.id = p.id ∧ (p.syncedToCloud = true → p'.syncedToCloud = true)) ∧
    (∀ p' ∈ (applyOp sampleSyncedStore (Op.mark [7])).punches,
        p'.id ∈ sampleSyncedStore.punches.map PunchRow.id ∨
          p'.syncedToCloud = false) :=
  synced_flag_monotone sampleSyncedStore (Op.mark [7]) (by simp)

/-! ### The drain cursor (claim C7) -/

/-- Ids are assigned below the counter — true of every store the core builds
(AUTOINCREMENT / `++counter` id assignment). -/
def Wf (s : Store) : Prop := ∀ p ∈ s.punches, p.id ≤ s.counter

theorem applyOp_marked_invariant (ids : List Nat) (s : Store) (op : Op)
    (h1 : Wf s) (h2 : ∀ i ∈ ids, i ≤ s.counter)
    (h3 : ∀ p ∈ s.punches, p.id ∈ ids → p.syncedToCloud = true) :
    Wf (applyOp s op) ∧ (∀ i ∈ ids, i ≤ (applyOp s op).counter) ∧
    (∀ p ∈ (applyOp s op).punches, p.id ∈ ids → p.syncedToCloud = true) := by
  have hext : ∀ (t : Store), t.punches = s.punches → s.counter ≤ t.counter →
      (∃ ext, t.punches = s.punches ++ ext) → True := fun _ _ _ _ => trivial
  cases op with
  | add r =>
    obtain ⟨ext, hpunches, hcounter, hprop⟩ := addAttendance_ext s r
    rw [show applyOp s (Op.add r) = (addAttendance s r).2 from rfl]
    refine ⟨?_, fun i hi => le_trans (h2 i hi) hcounter, ?_⟩
    · intro p hp
      rw [hpunches] at hp
      rcases List.mem_append.mp hp with h | h
      · exact le_trans (h1 p h) hcounter
      · exact (hprop p h).2.2
    · intro p hp hpid
      rw [hpunches] at hp
      rcases List.mem_append.mp hp with h | h
      · exact h3 p h hpid
      · exact absurd (h2 p.id hpid) (by have := (hprop p h).2.1; omega)
  | addBulk rs =>
    obtain ⟨ext, hpunches, hcounter, hprop⟩ := addAttendanceBulk_ext rs s
    rw [show applyOp s (Op.addBulk rs) = (addAttendanceBulk s rs).2 from rfl]
    refine ⟨?_, fun i hi => le_trans (h2 i hi) hcounter, ?_⟩
    · intro p hp
      rw [hpunches] at hp
      rcases List.mem_append.mp hp with h | h
      · exact le_trans (h1 p h) hcounter
      · exact (hprop p h).2.2
    · intro p hp hpid
      rw [hpunches] at hp
      rcases List.mem_append.mp hp with h | h
      · exact h3 p h hpid
      · exact absurd (h2 p.id hpid) (by have := (hprop p h).2.1; omega)
  | mark ids2 =>
    refine ⟨?_, h2, ?_⟩
    · intro p' hp'
      obtain ⟨p, hp, hpe⟩ := List.mem_map.mp hp'
      have : p'.id = p.id := by
        subst hpe
        by_cases h : p.id ∈ ids2 <;> simp [h]
      rw [show (applyOp s (Op.mark ids2)).counter = s.counter from rfl, this]
      exact h1 p hp
    · intro p' hp' hpid
      obtain ⟨p, hp, hpe⟩ := List.mem_map.mp hp'
      by_cases h : p.id ∈ ids2
      · subst hpe
        simp [h]
      · subst hpe
        simp only [if_neg h] at hpid ⊢
        exact h3 p hp hpid
  | log l => exact ⟨h1, h2, h3⟩
  | updDevice id t => exact ⟨h1, h2, h3⟩
  | clear => exact ⟨by intro p hp; simp [applyOp, clearAttendance] at hp, h2,
      by intro p hp; simp [applyOp, clearAttendance] at hp⟩

theorem runOps_marked_invariant (ids : List Nat) :
    ∀ (ops : List Op) (s : Store),
      Wf s → (∀ i ∈ ids, i ≤ s.counter) →
      (∀ p ∈ s.punches, p.id ∈ ids → p.syncedToCloud = true) →
      ∀ p ∈ (runOps s ops).punches, p.id ∈ ids → p.syncedToCloud = true
  | [], _, _, _, h3 => h3
  | op :: ops, s, h1, h2, h3 => by
    obtain ⟨h1', h2', h3'⟩ := applyOp_marked_invariant ids s op h1 h2 h3
    exact runOps_marked_invariant ids ops (applyOp s op) h1' h2' h3'

theorem mem_apiGetSync (s : Store) (since : Option String) (limit : Nat)
    (p : PunchRow) (h : p ∈ apiGetSync s since limit) :
    p ∈ s.punches ∧ p.syncedToCloud = false := by
  unfold apiGetSync getAttendance at h
  simp only at h
  have h1 := List.take_subset _ _ h
  rw [List.mem_mergeSort, List.mem_filter] at h1
  refine ⟨h1.1, ?_⟩
  have h2 := h1.2
  unfold rowMatches at h2
  simp only [Bool.and_eq_true, decide_eq_true_eq] at h2
  exact h2.2

/-- **C7** (amended). For every set of ids of punches *present in the store*
when `markAsSynced(ids)` runs, no subsequent `GET /api/attendance/sync`
response — in any later state reached by the core's store operations
(inserts, further marks, sync-log appends, device updates, purges) —
contains a punch whose id is in that set. -/
theorem marked_ids_never_resurface (s : Store) (ids : List Nat) (ops : List Op)
    (since : Option String) (limit : Nat) (hwf : Wf s)
    (hids : ∀ i ∈ ids, ∃ p ∈ s.punches, p.id = i) :
    (apiGetSync (runOps (markAsSynced s ids) ops) since limit).filter
      (fun p => decide (p.id ∈ ids)) = [] := by
  have h2 : ∀ i ∈ ids, i ≤ s.counter := by
    intro i hi
    obtain ⟨p, hp, hpe⟩ := hids i hi
    rw [← hpe]
    exact hwf p hp
  have h1' : Wf (markAsSynced s ids) := by
    intro p' hp'
    obtain ⟨p, hp, hpe⟩ := List.mem_map.mp hp'
    have : p'.id = p.id := by
      subst hpe
      by_cases h : p.id ∈ ids <;> simp [h]
    rw [show (markAsSynced s ids).counter = s.counter from rfl, this]
    exact hwf p hp
  have h3' : ∀ p ∈ (markAsSynced s ids).punches, p.id ∈ ids →
      p.syncedToCloud = true := by
    intro p' hp' hpid
    obtain ⟨p, hp, hpe⟩ := List.mem_map.mp hp'
    by_cases h : p.id ∈ ids
    · subst hpe
      simp [h]
    · subst hpe
      simp only [if_neg h] at hpid
      exact absurd hpid h
  have hfinal := runOps_marked_invariant ids ops (markAsSynced s ids) h1'
    (by intro i hi; exact h2 i hi) h3'
  rw [List.filter_eq_nil_iff]
  intro p hp
  obtain ⟨hmem, hunsynced⟩ := mem_apiGetSync _ since limit p hp
  simp only [decide_eq_true_eq]
  intro hpid
  have := hfinal p hmem hpid
  rw [this] at hunsynced
  exact Bool.noConfusion hunsynced

/-- Witness for the amended C7: mark the only punch of a one-punch store,
then purge-and-reinsert; the drain response never shows id 1. -/
theorem marked_ids_never_resurface_witness :
    (apiGetSync
      (runOps (markAsSynced
        { counter := 1
          punches := [{ id := 1, deviceId := 1, oderId := 0, oderId2 := 0,
                        oderId3 := 0, userId := "u", timestamp := "t",
                        status := 0, punch := 0, syncedToCloud := false }]
          devices := []
          syncLogs := [] } [1]) [Op.clear]) none 1000).filter
      (fun p => decide (p.id ∈ [1])) = [] :=
  marked_ids_never_resurface _ [1] [Op.clear] none 1000
    (by intro p hp; simp at hp; subst hp; rfl)
    (by intro i hi; simp at hi; subst hi
        exact ⟨_, List.mem_singleton_self _, rfl⟩)

/-- **C7** (counterexample). `markAsSynced` succeeds for unknown ids (they
are silently ignored), and the id counter can later assign such an id to a
fresh punch: after `markAsSynced([1])` on the empty store and one bulk
insert, the very next `GET /api/attendance/sync` response contains a punch
with id 1. -/
theorem mark_unknown_id_resurfaces_cex :
    (apiGetSync
      (runOps (markAsSynced emptyStore [1])
        [Op.addBulk [{ deviceId := 1, oderId := 0, oderId2 := 0, oderId3 := 0,
                       userId := "u", timestamp := "2026-01-01T00:00:00.000Z",
                       status := 0, punch := 0 }]]) none 1000).map PunchRow.id
      = [1] := by
  have hrun : runOps (markAsSynced emptyStore [1])
      [Op.addBulk [{ deviceId := 1, oderId := 0, oderId2 := 0, oderId3 := 0,
                     userId := "u", timestamp := "2026-01-01T00:00:00.000Z",
                     status := 0, punch := 0 }]] =
      { counter := 1
        punches := [{ id := 1, deviceId := 1, oderId := 0, oderId2 := 0,
                      oderId3 := 0, userId := "u",
                      timestamp := "2026-01-01T00:00:00.000Z",
                      status := 0, punch := 0, syncedToCloud := false }]
        devices := []
        syncLogs := [] } := by decide
  rw [hrun]
  unfold apiGetSync getAttendance
  rw [show ({ counter := 1
              punches := [{ id := 1, deviceId := 1, oderId := 0, oderId2 := 0,
                            oderId3 := 0, userId := "u",
                            timestamp := "2026-01-01T00:00:00.000Z",
                            status := 0, punch := 0, syncedToCloud := false }]
              devices := []
              syncLogs := [] } : Store).punches.filter
        (rowMatches { syncedToCloud := some false, limit := some 1000,
                      startDate := none }) =
      [{ id := 1, deviceId := 1, oderId := 0, oderId2 := 0,
         oderId3 := 0, userId := "u", timestamp := "2026-01-01T00:00:00.000Z",
         status := 0, punch := 0, syncedToCloud := false }] from by decide]
  rw [List.mergeSort_singleton]
  rfl

end DB


namespace API

/-!
### The API-key middleware (`validateApiKey` in src/main/api-server.ts)

`apiKey` models `req.headers['x-api-key']` (`none` when the header is
absent), `validKey` models `settingsStore?.get('cloudApiKey')` (`none` when
unset or when no store is attached). JS truthiness makes `!x` true both for
`undefined` and for the empty string, hence the explicit disjunctions.
-/

/-- What the middleware does with a request: short-circuit with an HTTP
status and error body, or hand the request to the endpoint handler. -/
inductive AuthOutcome where
  | respond (status : Nat) (error : String)
  | next
deriving Repr, DecidableEq

def validateApiKey (apiKey validKey : Option String) : AuthOutcome :=
  if apiKey = none ∨ apiKey = some "" then
    .respond 401 "API key required. Provide X-API-Key header."
  else if validKey = none ∨ validKey = some "" then
    .respond 503 "API key not configured. Please configure the cloud API key in settings."
  else if apiKey ≠ validKey then
    .respond 403 "Invalid API key"
  else
    .next

def statusOf : AuthOutcome → Option Nat
  | .respond s _ => some s
  | .next => none

/-- **C8** (counterexample). A request *with* an `X-API-Key` header whose
value is the empty string, on a server with no configured key, is answered
401 (the header value is falsy), not the 503 the claim requires for every
request with the header. -/
theorem empty_header_answered_401_cex :
    validateApiKey (some "") none =
      .respond 401 "API key required. Provide X-API-Key header." ∧
    statusOf (validateApiKey (some "") none) ≠ some 503 := by
  refine ⟨by decide, by decide⟩

/-- **C8** (amended). A request whose `X-API-Key` header is missing *or
empty* is answered 401; a request with a non-empty header while the
configured key is missing or empty is answered 503; a non-empty header
differing from the configured non-empty key is answered 403; and exactly the
requests whose non-empty header equals the configured key reach the endpoint
handler. -/
theorem validate_api_key_cases (h k : Option String) :
    (h = none ∨ h = some "" →
      validateApiKey h k =
        .respond 401 "API key required. Provide X-API-Key header.") ∧
    (h ≠ none → h ≠ some "" → k = none ∨ k = some "" →
      validateApiKey h k =
        .respond 503
          "API key not configured. Please configure the cloud API key in settings.") ∧
    (h ≠ none → h ≠ some "" → h ≠ k →
      (k = none ∨ k = some "" → False) →
      validateApiKey h k = .respond 403 "Invalid API key") ∧
    (h ≠ none → h ≠ some "" → h = k → validateApiKey h k = .next) := by
  refine ⟨?_, ?_, ?_, ?_⟩
  · intro hc
    unfold validateApiKey
    rw [if_pos hc]
  · intro h1 h2 hk
    unfold validateApiKey
    rw [if_neg (by rintro (hc | hc) <;> [exact h1 hc; exact h2 hc]), if_pos hk]
  · intro h1 h2 hne hk
    unfold validateApiKey
    rw [if_neg (by rintro (hc | hc) <;> [exact h1 hc; exact h2 hc]),
      if_neg hk, if_pos hne]
  · intro h1 h2 heq
    unfold validateApiKey
    rw [if_neg (by rintro (hc | hc) <;> [exact h1 hc; exact h2 hc]),
      if_neg (by rintro (hc | hc) <;> [exact h1 (heq.trans hc); exact h2 (heq.trans hc)]),
      if_neg (by intro hc; exact hc heq)]

/-- Witness for the amended C8: all four branches at concrete headers/keys. -/
theorem validate_api_key_cases_witness :
    validateApiKey none (some "secret") =
      .respond 401 "API key required. Provide X-API-Key header." ∧
    validateApiKey (some "secret") none =
      .respond 503
        "API key not configured. Please configure the cloud API key in settings." ∧
    validateApiKey (some "wrong") (some "secret") =
      .respond 403 "Invalid API key" ∧
    validateApiKey (some "secret") (some "secret") = .next :=
  ⟨(validate_api_key_cases none (some "secret")).1 (Or.inl rfl),
   (validate_api_key_cases (some "secret") none).2.1 (by decide) (by decide)
     (Or.inl rfl),
   (validate_api_key_cases (some "wrong") (some "secret")).2.2.1 (by decide)
     (by decide) (by decide) (by decide),
   (validate_api_key_cases (some "secret") (some "secret")).2.2.2 (by decide)
     (by decide) rfl⟩

end API

namespace Sched

/-!
### The poll scheduler (`Scheduler.syncAllDevices`)

`syncAllDevices` guards on the `isSyncing` flag: a call made while a sweep is
in flight returns `[]` immediately, touching neither the store nor the
device sessions and emitting no events. The flag is set synchronously before
the first `await` of a sweep and cleared in the `finally` after the last, so
every intermediate state of a sweep carries `isSyncing = true`. Device I/O is
abstracted by a `fetch` oracle returning either the decoded punches of a
device or the thrown error's message; `now` stands for
`new Date().toISOString()`.
-/

/-- The per-device result (`SyncResult` in the scheduler). -/
structure SyncResult where
  deviceId : Nat
  deviceName : String
  success : Bool
  recordsAdded : Nat
  totalRecords : Nat
  error : Option String
deriving Repr, DecidableEq

/-- Observable actions of a sweep: the device session and the three renderer
events. -/
inductive SchedEffect where
  | sessionOpened (deviceId : Nat)
  | syncStarted (deviceCount : Nat)
  | deviceSynced (r : SyncResult)
  | syncCompleted
deriving Repr, DecidableEq

/-- The scheduler state a sweep touches: the `isSyncing` flag plus the store
it writes through. -/
structure SchedState where
  isSyncing : Bool
  store : DB.Store
deriving Repr, DecidableEq

/-- `db.getActiveDevices()`: active devices ordered by name (`ORDER BY name`;
`localeCompare` modelled as code-point order — no stated property depends on
the collation). -/
def getActiveDevices (s : DB.Store) : List DB.DeviceRow :=
  (s.devices.filter (fun d => d.isActive)).mergeSort (fun a b => decide (a.name ≤ b.name))

/-- `Scheduler.syncDevice`: connect and fetch (the oracle), bulk-insert the
records tagged with the device id, stamp `lastSync`, append a success log —
or, when the session throws, append an error log; either way one device
session was opened. -/
def syncDevice (fetch : DB.DeviceRow → Except String (List DB.NewPunch))
    (now : String) (st : DB.Store) (d : DB.DeviceRow) :
    SyncResult × DB.Store × List SchedEffect :=
  match fetch d with
  | .error msg =>
    ({ deviceId := d.id, deviceName := d.name, success := false,
       recordsAdded := 0, totalRecords := 0, error := some msg },
     DB.addSyncLog st
       { deviceId := d.id, syncType := "pull", recordCount := 0,
         status := "error", message := msg },
     [.sessionOpened d.id])
  | .ok recs =>
    let tagged := recs.map (fun r => { r with deviceId := d.id })
    let ins := if recs.length ≠ 0 then DB.addAttendanceBulk st tagged else (0, st)
    let st2 := DB.updateDeviceLastSync ins.2 d.id now
    let st3 := DB.addSyncLog st2
      { deviceId := d.id, syncType := "pull", recordCount := ins.1,
        status := "success",
        message := "Pulled records" }
    ({ deviceId := d.id, deviceName := d.name, success := true,
       recordsAdded := ins.1, totalRecords := recs.length, error := none },
     st3, [.sessionOpened d.id])

/-- The device loop inside `syncAllDevices`, threading the store and
interleaving the `device-synced` events. -/
def sweep (fetch : DB.DeviceRow → Except String (List DB.NewPunch))
    (now : String) : List DB.DeviceRow → DB.Store →
    List SyncResult × DB.Store × List SchedEffect
  | [], st => ([], st, [])
  | d :: ds, st =>
    let step := syncDevice fetch now st d
    let rest := sweep fetch now ds step.2.1
    (step.1 :: rest.1, rest.2.1,
      step.2.2 ++ [.deviceSynced step.1] ++ rest.2.2)

/-- `Scheduler.syncAllDevices`: single-flight guard, then the sweep with its
`sync-started`/`sync-completed` events; the flag is cleared in `finally`. -/
def syncAllDevices (fetch : DB.DeviceRow → Except String (List DB.NewPunch))
    (now : String) (s : SchedState) :
    List SyncResult × SchedState × List SchedEffect :=
  if s.isSyncing then ([], s, [])
  else
    let ds := getActiveDevices s.store
    let run := sweep fetch now ds s.store
    (run.1, { isSyncing := false, store := run.2.1 },
      [.syncStarted ds.length] ++ run.2.2 ++ [.syncCompleted])

/-- The store values at the suspension points of a sweep (before each device
and before the `finally`). -/
def sweepStores (fetch : DB.DeviceRow → Except String (List DB.NewPunch))
    (now : String) : List DB.DeviceRow → DB.Store → List DB.Store
  | [], st => [st]
  | d :: ds, st => st :: sweepStores fetch now ds (syncDevice fetch now st d).2.1

/-- The scheduler states during a sweep started from `s` (empty when the
guard rejects the call): `isSyncing` is set before the loop and cleared only
in the `finally`. -/
def sweepStates (fetch : DB.DeviceRow → Except String (List DB.NewPunch))
    (now : String) (s : SchedState) : List SchedState :=
  if s.isSyncing then []
  else (sweepStores fetch now (getActiveDevices s.store) s.store).map
    (fun st => { isSyncing := true, store := st })

/-- **C9** (confirmed). The `isSyncing` flag is true at every intermediate
state of a sweep, and `syncAllDevices` is single-flight: a call made while
`isSyncing` is true — in particular at any point during a running sweep —
returns immediately with an empty vector, leaves the scheduler state (and
hence the store) untouched, and performs no device sessions and emits no
events. -/
theorem sync_all_single_flight
    (fetch fetch2 : DB.DeviceRow → Except String (List DB.NewPunch))
    (now now2 : String) (s : SchedState) :
    (s.isSyncing = true → syncAllDevices fetch now s = ([], s, [])) ∧
    (∀ t ∈ sweepStates fetch now s, t.isSyncing = true ∧
      syncAllDevices fetch2 now2 t = ([], t, [])) := by
  constructor
  · intro h
    unfold syncAllDevices
    rw [if_pos h]
  · intro t ht
    have hsync : t.isSyncing = true := by
      unfold sweepStates at ht
      by_cases h : s.isSyncing
      · rw [if_pos h] at ht
        exact absurd ht (List.not_mem_nil t)
      · rw [if_neg h] at ht
        obtain ⟨st, _, hte⟩ := List.mem_map.mp ht
        rw [← hte]
    refine ⟨hsync, ?_⟩
    unfold syncAllDevices
    rw [if_pos hsync]

/-- Witness for C9: a re-entrant call on a syncing scheduler is a no-op, at a
concrete state and oracle. -/
theorem sync_all_single_flight_witness :
    syncAllDevices (fun _ => Except.ok []) "now"
      { isSyncing := true, store := DB.emptyStore } =
      ([], { isSyncing := true, store := DB.emptyStore }, []) :=
  (sync_all_single_flight (fun _ => Except.ok []) (fun _ => Except.ok [])
    "now" "now" { isSyncing := true, store := DB.emptyStore }).1 rfl

end Sched
